import Mathlib

/-!
Verification development for the Dekin-Ydays frontend repository.

The data model and the helper functions (`COMPARISON_PRESETS`,
`getScoreColor`, `getScoreLabel`, `formatDuration`) are shallow embeddings
of the TypeScript source in `src/services/video-parser-api.ts` and
`src/components/video-selector.tsx`.  JavaScript numbers are embedded as
rationals (`ℚ`); integer millisecond durations as `ℕ`.

The pose-sequence comparator itself (normalizer, frame scorer, aligner,
aggregator) is not part of this repository's source: only its
request/response contract is.  Those definitions are modelled from the
specification and are marked `Modelled from the spec:` in their doc
comments.
-/

namespace Frontend

/-- Landmark record from `src/services/video-parser-api.ts`: a 3D point with
optional visibility and presence confidences. -/
structure Landmark where
  x : ℚ
  y : ℚ
  z : ℚ
  visibility : Option ℚ := none
  presence : Option ℚ := none
deriving DecidableEq

/-- VideoFrame record from `src/services/video-parser-api.ts`: a timestamped
array of landmarks. -/
structure VideoFrame where
  timestamp : ℚ
  landmarks : List Landmark
deriving DecidableEq

/-- Normalization flags of `ComparisonConfig` in
`src/services/video-parser-api.ts`. -/
structure Normalization where
  center : Bool
  scale : Bool
  rotation : Bool
deriving DecidableEq

/-- Preset entry shape of `COMPARISON_PRESETS` in
`src/services/video-parser-api.ts`: the `sports` preset carries a
`visibilityThreshold`, the others omit it, hence the `Option`. -/
structure PresetConfig where
  normalization : Normalization
  positionWeight : ℚ
  angularWeight : ℚ
  visibilityThreshold : Option ℚ := none
deriving DecidableEq

/-- The three named presets of `COMPARISON_PRESETS`. -/
structure ComparisonPresets where
  dance : PresetConfig
  yoga : PresetConfig
  sports : PresetConfig
deriving DecidableEq

/-- `COMPARISON_PRESETS` constant from `src/services/video-parser-api.ts`
(lines 183-212), field for field. -/
def COMPARISON_PRESETS : ComparisonPresets :=
  { dance :=
      { normalization := { center := true, scale := true, rotation := false }
        positionWeight := 0.5
        angularWeight := 0.5 }
    yoga :=
      { normalization := { center := true, scale := true, rotation := true }
        positionWeight := 0.4
        angularWeight := 0.6 }
    sports :=
      { normalization := { center := true, scale := true, rotation := false }
        positionWeight := 0.7
        angularWeight := 0.3
        visibilityThreshold := some 0.7 } }

/-- Statistics block of `ScoringResult` in `src/services/video-parser-api.ts`. -/
structure Statistics where
  mean : ℚ
  min : ℚ
  max : ℚ
  variance : ℚ
deriving DecidableEq

/-- Breakdown block of `ScoringResult` in `src/services/video-parser-api.ts`. -/
structure Breakdown where
  positionScore : ℚ
  angularScore : ℚ
  timingScore : ℚ
  statistics : Statistics
deriving DecidableEq

/-- `ScoringResult` from `src/services/video-parser-api.ts` (lines 64-78). -/
structure ScoringResult where
  overallScore : ℚ
  frameScores : List ℚ
  breakdown : Breakdown
deriving DecidableEq

/-- `getScoreColor` from `src/services/video-parser-api.ts` (lines 163-168). -/
def getScoreColor (score : ℚ) : String :=
  if score ≥ 90 then "#22c55e"
  else if score ≥ 70 then "#eab308"
  else if score ≥ 50 then "#f97316"
  else "#ef4444"

/-- `getScoreLabel` from `src/services/video-parser-api.ts` (lines 173-178). -/
def getScoreLabel (score : ℚ) : String :=
  if score ≥ 90 then "Excellent"
  else if score ≥ 70 then "Good"
  else if score ≥ 50 then "Fair"
  else "Needs Improvement"

/-- JavaScript `String.prototype.padStart(n, c)`: left-pad `s` with `c` up to
length `n` (used with length 2 and the zero digit in `formatDuration`). -/
def padStart (n : ℕ) (c : Char) (s : String) : String :=
  if s.length < n then String.mk (List.replicate (n - s.length) c) ++ s else s

/-- `formatDuration` from `src/components/video-selector.tsx` (lines 36-42 and
271-277, two identical copies): `none` models JavaScript `null`; the source
tests falsiness (`if (!ms)`), so both `null` and `0` yield the string
`In progress`. -/
def formatDuration (ms : Option ℕ) : String :=
  match ms with
  | none => "In progress"
  | some m =>
    if m = 0 then "In progress"
    else
      let seconds := m / 1000
      let minutes := seconds / 60
      let remainingSeconds := seconds % 60
      toString minutes ++ ":" ++ padStart 2 '0' (toString remainingSeconds)

/-- Modelled from the spec: the comparator's resolved configuration (§3, §6) —
the backend scoring service is not in this repository's source, so the
optional fields of the request-side `ComparisonConfig` are taken here as
already resolved to concrete values. -/
structure ResolvedConfig where
  normalization : Normalization
  positionWeight : ℚ
  angularWeight : ℚ
  visibilityThreshold : ℚ
deriving DecidableEq

/-- Modelled from the spec (§4.1): visibility of a landmark, defaulting to 1
when the optional field is absent. -/
def visD (l : Landmark) : ℚ := l.visibility.getD 1

/-- Default landmark for positional lookups. -/
def defaultLandmark : Landmark := { x := 0, y := 0, z := 0 }

/-- Default frame for positional lookups. -/
def defaultFrame : VideoFrame := { timestamp := 0, landmarks := [] }

/-- Translate a landmark by the negated offset, keeping confidences. -/
def translateLandmark (dx dy dz : ℚ) (l : Landmark) : Landmark :=
  { l with x := l.x - dx, y := l.y - dy, z := l.z - dz }

/-- Divide a landmark's coordinates by a body-scale reference, keeping
confidences. -/
def scaleLandmark (s : ℚ) (l : Landmark) : Landmark :=
  { l with x := l.x / s, y := l.y / s, z := l.z / s }

/-- Rotate a landmark about the vertical (y) axis so that the shoulder
direction (sx, sz) maps to the positive x direction, combined with a uniform
rescale by the shoulder length (rational-arithmetic conformal variant of the
rotation alignment). -/
def rotateLandmark (sx sz q : ℚ) (l : Landmark) : Landmark :=
  { l with x := (sx * l.x + sz * l.z) / q, z := (sx * l.z - sz * l.x) / q }

/-- Modelled from the spec (§4.1): whether both hips (landmarks 23 and 24) are
present and at or above the visibility threshold, so they may serve as the
normalization reference. -/
def hipsUsable (t : ℚ) (lms : List Landmark) : Prop :=
  24 < lms.length ∧ t ≤ visD (lms.getD 23 defaultLandmark) ∧
    t ≤ visD (lms.getD 24 defaultLandmark)

instance (t : ℚ) (lms : List Landmark) : Decidable (hipsUsable t lms) := by
  unfold hipsUsable; infer_instance

/-- Modelled from the spec (§4.1): centering — translate all landmarks so the
mid-hip (midpoint of landmarks 23 and 24) is at the origin; identity fallback
when the hips are not usable. -/
def centerStep (t : ℚ) (lms : List Landmark) : List Landmark :=
  if hipsUsable t lms then
    let h1 := lms.getD 23 defaultLandmark
    let h2 := lms.getD 24 defaultLandmark
    lms.map (translateLandmark ((h1.x + h2.x) / 2) ((h1.y + h2.y) / 2) ((h1.z + h2.z) / 2))
  else lms

/-- Modelled from the spec (§4.1): the body-scale reference distance, chosen
(the spec leaves the concrete reference open) as the 1-norm hip width between
landmarks 23 and 24. -/
def hipWidth (lms : List Landmark) : ℚ :=
  let h1 := lms.getD 23 defaultLandmark
  let h2 := lms.getD 24 defaultLandmark
  |h1.x - h2.x| + |h1.y - h2.y| + |h1.z - h2.z|

/-- Modelled from the spec (§4.1): scaling — divide all coordinates by the
body-scale reference distance; identity fallback when the hips are not usable
or the reference distance is zero. -/
def scaleStep (t : ℚ) (lms : List Landmark) : List Landmark :=
  if hipsUsable t lms ∧ hipWidth lms ≠ 0 then lms.map (scaleLandmark (hipWidth lms))
  else lms

/-- Modelled from the spec (§4.1): rotation alignment — rotate about the
vertical axis so the shoulder line (landmarks 11 and 12) aligns to the
canonical x direction (conformal rational variant); identity fallback when the
shoulders are not usable or coincide horizontally. -/
def rotationStep (t : ℚ) (lms : List Landmark) : List Landmark :=
  let s1 := lms.getD 11 defaultLandmark
  let s2 := lms.getD 12 defaultLandmark
  let sx := s1.x - s2.x
  let sz := s1.z - s2.z
  if 12 < lms.length ∧ t ≤ visD s1 ∧ t ≤ visD s2 ∧ sx ^ 2 + sz ^ 2 ≠ 0 then
    lms.map (rotateLandmark sx sz (sx ^ 2 + sz ^ 2))
  else lms

/-- Modelled from the spec (§4.1): the landmark normalizer — centering, then
scaling, then rotation alignment, each gated by its normalization flag, with
per-step identity fallbacks.  Indexing, array length and confidence fields are
preserved. -/
def normalizeFrame (n : Normalization) (t : ℚ) (lms : List Landmark) : List Landmark :=
  let l1 := if n.center then centerStep t lms else lms
  let l2 := if n.scale then scaleStep t l1 else l1
  if n.rotation then rotationStep t l2 else l2

/-- Squared Euclidean distance between two landmarks. -/
def distSq (a b : Landmark) : ℚ :=
  (a.x - b.x) ^ 2 + (a.y - b.y) ^ 2 + (a.z - b.z) ^ 2

/-- Modelled from the spec (§4.2): the distance-to-similarity map is left open
by the spec; chosen here as the monotonically decreasing function
100 * max 0 (1 - d^2) of the Euclidean distance d, equal to 100 at distance
zero. -/
def posSim (a b : Landmark) : ℚ := 100 * max 0 (1 - distSq a b)

/-- Modelled from the spec (§4.2): the body-part importance table is left open
by the spec; chosen here as weight 1 for the face (indices 0-10), 2 for arms
and shoulders (11-22), 3 for hips and legs (23-32). -/
def landmarkWeight (i : ℕ) : ℚ := if i ≤ 10 then 1 else if i ≤ 22 then 2 else 3

/-- Modelled from the spec (§4.2): indices present in both landmark arrays
whose visibility reaches the threshold in both frames. -/
def comparableIdx (t : ℚ) (r c : List Landmark) : List ℕ :=
  (List.range (min r.length c.length)).filter
    (fun i => decide (t ≤ visD (r.getD i defaultLandmark)) &&
      decide (t ≤ visD (c.getD i defaultLandmark)))

/-- Modelled from the spec (§4.2): position score — importance-weighted
average of per-landmark similarities over the comparable indices; 0 when
nothing is comparable (the rational division convention makes 0 / 0 = 0,
matching the explicit everything-occluded policy). -/
def positionScore (t : ℚ) (r c : List Landmark) : ℚ :=
  let idxs := comparableIdx t r c
  (idxs.map (fun i =>
      landmarkWeight i * posSim (r.getD i defaultLandmark) (c.getD i defaultLandmark))).sum /
    (idxs.map landmarkWeight).sum

/-- Difference vector between two landmarks. -/
def subL (a b : Landmark) : ℚ × ℚ × ℚ := (a.x - b.x, a.y - b.y, a.z - b.z)

/-- Dot product on rational 3-vectors. -/
def dot3 (u v : ℚ × ℚ × ℚ) : ℚ := u.1 * v.1 + u.2.1 * v.2.1 + u.2.2 * v.2.2

/-- Modelled from the spec (§4.2): the joint angle between two bone vectors is
represented by the strictly decreasing rational reparametrization
sign(cos θ) * (cos θ)^2 = ⟨u,v⟩·|⟨u,v⟩| / (‖u‖² ‖v‖²) of the angle θ, which
determines θ on [0, 180] degrees; 0 when a bone vector is degenerate. -/
def angleCode (u v : ℚ × ℚ × ℚ) : ℚ :=
  dot3 u v * |dot3 u v| / (dot3 u u * dot3 v v)

/-- Modelled from the spec (§4.2): the scored joints — both elbows, both
knees, both hips — each as (adjacent landmark, joint landmark, adjacent
landmark) triples in the fixed 33-point indexing. -/
def jointTriples : List (ℕ × ℕ × ℕ) :=
  [(11, 13, 15), (12, 14, 16), (23, 25, 27), (24, 26, 28), (11, 23, 25), (12, 24, 26)]

/-- Angle code of one joint of a frame: the code of the angle between the two
adjacent bone vectors at the joint. -/
def jointCode (lms : List Landmark) (j : ℕ × ℕ × ℕ) : ℚ :=
  let a := lms.getD j.1 defaultLandmark
  let b := lms.getD j.2.1 defaultLandmark
  let c := lms.getD j.2.2 defaultLandmark
  angleCode (subL a b) (subL c b)

/-- Modelled from the spec (§4.2): a joint is usable in a frame when all three
of its landmarks are present and at or above the visibility threshold. -/
def jointUsable (t : ℚ) (lms : List Landmark) (j : ℕ × ℕ × ℕ) : Bool :=
  decide (j.1 < lms.length) && decide (j.2.1 < lms.length) &&
    decide (j.2.2 < lms.length) &&
    decide (t ≤ visD (lms.getD j.1 defaultLandmark)) &&
    decide (t ≤ visD (lms.getD j.2.1 defaultLandmark)) &&
    decide (t ≤ visD (lms.getD j.2.2 defaultLandmark))

/-- Modelled from the spec (§4.2): per-joint angular similarity — the
decreasing linear map 100 * (1 - Δ/2) of the absolute angle-code difference
Δ ∈ [0, 2], equal to 100 when the joint angles agree. -/
def angSim (r c : List Landmark) (j : ℕ × ℕ × ℕ) : ℚ :=
  100 * (1 - |jointCode r j - jointCode c j| / 2)

/-- Modelled from the spec (§4.2): angular score — unweighted average of the
per-joint similarities over the usable joints; 0 when no joint is usable. -/
def angularScore (t : ℚ) (r c : List Landmark) : ℚ :=
  let js := jointTriples.filter (fun j => jointUsable t r j && jointUsable t c j)
  (js.map (angSim r c)).sum / (js.length : ℚ)

/-- Position sub-score of one aligned frame pair, after normalization. -/
def framePositionScore (cfg : ResolvedConfig) (fr fc : VideoFrame) : ℚ :=
  positionScore cfg.visibilityThreshold
    (normalizeFrame cfg.normalization cfg.visibilityThreshold fr.landmarks)
    (normalizeFrame cfg.normalization cfg.visibilityThreshold fc.landmarks)

/-- Angular sub-score of one aligned frame pair, after normalization. -/
def frameAngularScore (cfg : ResolvedConfig) (fr fc : VideoFrame) : ℚ :=
  angularScore cfg.visibilityThreshold
    (normalizeFrame cfg.normalization cfg.visibilityThreshold fr.landmarks)
    (normalizeFrame cfg.normalization cfg.visibilityThreshold fc.landmarks)

/-- Clamp a score into [0, 100]. -/
def clampScore (x : ℚ) : ℚ := min 100 (max 0 x)

/-- Modelled from the spec (§4.2): per-frame score — the weighted combination
of the position and angular sub-scores, clamped to [0, 100]. -/
def frameScore (cfg : ResolvedConfig) (fr fc : VideoFrame) : ℚ :=
  clampScore (cfg.positionWeight * framePositionScore cfg fr fc +
    cfg.angularWeight * frameAngularScore cfg fr fc)

/-- Round a rational to the nearest natural number (round-half-up on the
nonnegative inputs the aligner produces). -/
def natRound (q : ℚ) : ℕ := (round q).toNat

/-- Modelled from the spec (§4.3): source index of output pair i when
resampling a sequence of length len down to N pairs. -/
def alignIndex (len N i : ℕ) : ℕ :=
  natRound ((i : ℚ) * ((len : ℚ) - 1) / ((N : ℚ) - 1))

/-- Modelled from the spec (§4.3): the linear time-warp aligner — N = min of
the lengths output pairs, pair i mapping to the rounded proportional indices
in each sequence (for N = 1 the rational division convention yields the single
pair (0, 0), the degenerate case of the spec). -/
def alignIndices (lenR lenC : ℕ) : List (ℕ × ℕ) :=
  (List.range (min lenR lenC)).map
    (fun i => (alignIndex lenR (min lenR lenC) i, alignIndex lenC (min lenR lenC) i))

/-- Arithmetic mean of a list of rationals (0 for the empty list). -/
def meanQ (l : List ℚ) : ℚ := l.sum / (l.length : ℚ)

/-- Minimum of a list of rationals (0 for the empty list). -/
def listMin : List ℚ → ℚ
  | [] => 0
  | x :: xs => xs.foldl min x

/-- Maximum of a list of rationals (0 for the empty list). -/
def listMax : List ℚ → ℚ
  | [] => 0
  | x :: xs => xs.foldl max x

/-- Modelled from the spec (§4.4): summary statistics over the frame scores,
with population variance (mean of squared deviations). -/
def statsOf (l : List ℚ) : Statistics :=
  { mean := meanQ l
    min := listMin l
    max := listMax l
    variance := (l.map (fun s => (s - meanQ l) ^ 2)).sum / (l.length : ℚ) }

/-- Modelled from the spec (§4.4): duration of an original (unaligned)
sequence — last timestamp minus first timestamp; 0 for sequences with fewer
than two frames. -/
def seqDuration (frames : List VideoFrame) : ℚ :=
  (frames.getLastD defaultFrame).timestamp - (frames.headD defaultFrame).timestamp

/-- Modelled from the spec (§4.4): timing score —
100 * min(durationA, durationB) / max(durationA, durationB), and 100 when both
durations are 0 (trivial match). -/
def timingScoreOf (ref cmp : List VideoFrame) : ℚ :=
  if seqDuration ref = 0 ∧ seqDuration cmp = 0 then 100
  else 100 * min (seqDuration ref) (seqDuration cmp) / max (seqDuration ref) (seqDuration cmp)

/-- Modelled from the spec (§7): the comparator's one top-level error; the
optional compute-budget error of the spec is not part of the reference
design. -/
inductive CompareError where
  | InvalidInput
deriving DecidableEq

/-- Modelled from the spec (§4, §7): the pose sequence comparator — validation
first (empty sequence or weights not summing to 1, where the floating
tolerance of the spec collapses to exact equality in the rational model), then
alignment, per-pair scoring, and aggregation with the documented 0.8 / 0.2
blend of mean frame score and timing score. -/
def compareSequences (ref cmp : List VideoFrame) (cfg : ResolvedConfig) :
    Except CompareError ScoringResult :=
  if ref = [] ∨ cmp = [] ∨ cfg.positionWeight + cfg.angularWeight ≠ 1 then
    .error .InvalidInput
  else
    let pairs := alignIndices ref.length cmp.length
    let pos := pairs.map (fun p =>
      framePositionScore cfg (ref.getD p.1 defaultFrame) (cmp.getD p.2 defaultFrame))
    let ang := pairs.map (fun p =>
      frameAngularScore cfg (ref.getD p.1 defaultFrame) (cmp.getD p.2 defaultFrame))
    let fScores := pairs.map (fun p =>
      frameScore cfg (ref.getD p.1 defaultFrame) (cmp.getD p.2 defaultFrame))
    .ok
      { overallScore := 4 / 5 * meanQ fScores + 1 / 5 * timingScoreOf ref cmp
        frameScores := fScores
        breakdown :=
          { positionScore := meanQ pos
            angularScore := meanQ ang
            timingScore := timingScoreOf ref cmp
            statistics := statsOf fScores } }

/-- Well-formed frame of the data model (§3): exactly 33 landmarks, each with
nonnegative visibility. -/
def FrameOK (f : VideoFrame) : Prop :=
  f.landmarks.length = 33 ∧ ∀ l ∈ f.landmarks, 0 ≤ visD l

instance (f : VideoFrame) : Decidable (FrameOK f) := by
  unfold FrameOK; infer_instance

/-- Data-model invariant of §3: timestamps are monotonically non-decreasing
within a video. -/
def TimestampsMono (frames : List VideoFrame) : Prop :=
  List.Pairwise (fun a b => a.timestamp ≤ b.timestamp) frames

instance (frames : List VideoFrame) : Decidable (TimestampsMono frames) := by
  unfold TimestampsMono; infer_instance

/-- Concrete frame with no landmarks, used in concrete instantiations. -/
def emptyF : VideoFrame := { timestamp := 0, landmarks := [] }

/-- Concrete resolved configuration with equal weights. -/
def cfgHalf : ResolvedConfig :=
  { normalization := { center := true, scale := true, rotation := false }
    positionWeight := 1 / 2
    angularWeight := 1 / 2
    visibilityThreshold := 1 / 2 }

/-- Concrete resolved configuration with visibility threshold 0. -/
def cfgIdent : ResolvedConfig :=
  { normalization := { center := true, scale := true, rotation := true }
    positionWeight := 1 / 2
    angularWeight := 1 / 2
    visibilityThreshold := 0 }

/-- Concrete full 33-landmark frame at the origin. -/
def frame33 : VideoFrame :=
  { timestamp := 0, landmarks := List.replicate 33 { x := 0, y := 0, z := 0 } }

/-- Concrete 10-frame sequence. -/
def seq10 : List VideoFrame := List.replicate 10 emptyF

/-- Concrete 20-frame sequence. -/
def seq20 : List VideoFrame := List.replicate 20 emptyF

/-- Concrete comparator output for two copies of the one-frame sequence
`[emptyF]` under `cfgHalf`: no landmark is comparable, so the single aligned
pair scores 0, while both durations are 0 so the timing score is 100 and the
overall blend is 4/5 * 0 + 1/5 * 100 = 20. -/
def resultEmpty : ScoringResult :=
  { overallScore := 20
    frameScores := [0]
    breakdown :=
      { positionScore := 0
        angularScore := 0
        timingScore := 100
        statistics := { mean := 0, min := 0, max := 0, variance := 0 } } }

/-- C1: the three named presets in `COMPARISON_PRESETS` have exactly the field
values the spec lists: dance has center=true, scale=true, rotation=false,
positionWeight=0.5, angularWeight=0.5; yoga has center=true, scale=true,
rotation=true, positionWeight=0.4, angularWeight=0.6; sports has center=true,
scale=true, rotation=false, positionWeight=0.7, angularWeight=0.3,
visibilityThreshold=0.7. -/
theorem c1_preset_field_values :
    COMPARISON_PRESETS.dance.normalization.center = true ∧
    COMPARISON_PRESETS.dance.normalization.scale = true ∧
    COMPARISON_PRESETS.dance.normalization.rotation = false ∧
    COMPARISON_PRESETS.dance.positionWeight = 0.5 ∧
    COMPARISON_PRESETS.dance.angularWeight = 0.5 ∧
    COMPARISON_PRESETS.yoga.normalization.center = true ∧
    COMPARISON_PRESETS.yoga.normalization.scale = true ∧
    COMPARISON_PRESETS.yoga.normalization.rotation = true ∧
    COMPARISON_PRESETS.yoga.positionWeight = 0.4 ∧
    COMPARISON_PRESETS.yoga.angularWeight = 0.6 ∧
    COMPARISON_PRESETS.sports.normalization.center = true ∧
    COMPARISON_PRESETS.sports.normalization.scale = true ∧
    COMPARISON_PRESETS.sports.normalization.rotation = false ∧
    COMPARISON_PRESETS.sports.positionWeight = 0.7 ∧
    COMPARISON_PRESETS.sports.angularWeight = 0.3 ∧
    COMPARISON_PRESETS.sports.visibilityThreshold = some 0.7 := by
  refine ⟨rfl, rfl, rfl, ?_, ?_, rfl, rfl, rfl, ?_, ?_, rfl, rfl, rfl, ?_, ?_, rfl⟩ <;>
    norm_num [COMPARISON_PRESETS]

/-- C2: for every one of the three presets defined in `COMPARISON_PRESETS`
(dance, yoga, sports), the sum positionWeight + angularWeight equals
exactly 1.0. -/
theorem c2_preset_weights_sum_to_one :
    COMPARISON_PRESETS.dance.positionWeight + COMPARISON_PRESETS.dance.angularWeight = 1 ∧
    COMPARISON_PRESETS.yoga.positionWeight + COMPARISON_PRESETS.yoga.angularWeight = 1 ∧
    COMPARISON_PRESETS.sports.positionWeight + COMPARISON_PRESETS.sports.angularWeight = 1 := by
  refine ⟨?_, ?_, ?_⟩ <;> norm_num [COMPARISON_PRESETS]

/-- C9: `getScoreColor` and `getScoreLabel` are total functions classifying
every score by the same three thresholds (≥ 90, ≥ 70, ≥ 50): for every score
s, getScoreColor s = "#22c55e" iff getScoreLabel s = "Excellent", "#eab308"
iff "Good", "#f97316" iff "Fair", and "#ef4444" iff "Needs Improvement". -/
theorem c9_color_label_agree (s : ℚ) :
    (getScoreColor s = "#22c55e" ↔ getScoreLabel s = "Excellent") ∧
    (getScoreColor s = "#eab308" ↔ getScoreLabel s = "Good") ∧
    (getScoreColor s = "#f97316" ↔ getScoreLabel s = "Fair") ∧
    (getScoreColor s = "#ef4444" ↔ getScoreLabel s = "Needs Improvement") := by
  unfold getScoreColor getScoreLabel
  split_ifs <;> decide

/-- C10: `formatDuration` returns "In progress" both for `null` and for 0
milliseconds (it tests falsiness, so a sealed zero-length video is displayed
as still in progress); for every ms > 0 it returns floor(ms/60000), ":", and
the remaining whole seconds, which lie in 0..59 and are zero-padded to two
digits. -/
theorem c10_formatDuration_spec (ms : ℕ) (hms : 0 < ms) :
    formatDuration none = "In progress" ∧
    formatDuration (some 0) = "In progress" ∧
    formatDuration (some ms) =
      toString (ms / 60000) ++ ":" ++ padStart 2 '0' (toString (ms / 1000 % 60)) ∧
    ms / 1000 % 60 ≤ 59 := by
  refine ⟨rfl, rfl, ?_, ?_⟩
  · show formatDuration (some ms) = _
    have h60 : ms / 1000 / 60 = ms / 60000 := by
      rw [Nat.div_div_eq_div_mul]
    simp only [formatDuration, if_neg hms.ne']
    rw [h60]
  · have := Nat.mod_lt (ms / 1000) (show 0 < 60 by decide)
    omega

/-- Witness for C10 at ms = 125000 (2 minutes 5 seconds). -/
theorem c10_formatDuration_spec_witness :
    0 < 125000 ∧
    (formatDuration none = "In progress" ∧
     formatDuration (some 0) = "In progress" ∧
     formatDuration (some 125000) =
       toString (125000 / 60000) ++ ":" ++ padStart 2 '0' (toString (125000 / 1000 % 60)) ∧
     125000 / 1000 % 60 ≤ 59) :=
  ⟨by decide, c10_formatDuration_spec 125000 (by decide)⟩

/-- Unfolding lemma: on validated input the comparator returns the fully
populated record built by the aggregation pipeline. -/
theorem compareSequences_eq_ok {ref cmp : List VideoFrame} {cfg : ResolvedConfig}
    (h : ¬(ref = [] ∨ cmp = [] ∨ cfg.positionWeight + cfg.angularWeight ≠ 1)) :
    compareSequences ref cmp cfg = .ok
      { overallScore := 4 / 5 * meanQ ((alignIndices ref.length cmp.length).map (fun p =>
            frameScore cfg (ref.getD p.1 defaultFrame) (cmp.getD p.2 defaultFrame))) +
          1 / 5 * timingScoreOf ref cmp
        frameScores := (alignIndices ref.length cmp.length).map (fun p =>
            frameScore cfg (ref.getD p.1 defaultFrame) (cmp.getD p.2 defaultFrame))
        breakdown :=
          { positionScore := meanQ ((alignIndices ref.length cmp.length).map (fun p =>
                framePositionScore cfg (ref.getD p.1 defaultFrame) (cmp.getD p.2 defaultFrame)))
            angularScore := meanQ ((alignIndices ref.length cmp.length).map (fun p =>
                frameAngularScore cfg (ref.getD p.1 defaultFrame) (cmp.getD p.2 defaultFrame)))
            timingScore := timingScoreOf ref cmp
            statistics := statsOf ((alignIndices ref.length cmp.length).map (fun p =>
                frameScore cfg (ref.getD p.1 defaultFrame) (cmp.getD p.2 defaultFrame))) } } := by
  unfold compareSequences
  rw [if_neg h]

/-- Inversion: any successful comparator result is exactly the aggregated
record. -/
theorem compareSequences_ok_inv {ref cmp : List VideoFrame} {cfg : ResolvedConfig}
    {r : ScoringResult} (h : compareSequences ref cmp cfg = .ok r) :
    r = { overallScore := 4 / 5 * meanQ ((alignIndices ref.length cmp.length).map (fun p =>
            frameScore cfg (ref.getD p.1 defaultFrame) (cmp.getD p.2 defaultFrame))) +
          1 / 5 * timingScoreOf ref cmp
          frameScores := (alignIndices ref.length cmp.length).map (fun p =>
            frameScore cfg (ref.getD p.1 defaultFrame) (cmp.getD p.2 defaultFrame))
          breakdown :=
          { positionScore := meanQ ((alignIndices ref.length cmp.length).map (fun p =>
                framePositionScore cfg (ref.getD p.1 defaultFrame) (cmp.getD p.2 defaultFrame)))
            angularScore := meanQ ((alignIndices ref.length cmp.length).map (fun p =>
                frameAngularScore cfg (ref.getD p.1 defaultFrame) (cmp.getD p.2 defaultFrame)))
            timingScore := timingScoreOf ref cmp
            statistics := statsOf ((alignIndices ref.length cmp.length).map (fun p =>
                frameScore cfg (ref.getD p.1 defaultFrame) (cmp.getD p.2 defaultFrame))) } } := by
  by_cases hc : ref = [] ∨ cmp = [] ∨ cfg.positionWeight + cfg.angularWeight ≠ 1
  · unfold compareSequences at h
    rw [if_pos hc] at h
    exact absurd h (by simp)
  · rw [compareSequences_eq_ok hc] at h
    exact (Except.ok.inj h).symm

/-- The clamp really lands in [0, 100]. -/
theorem clampScore_bounds (x : ℚ) : 0 ≤ clampScore x ∧ clampScore x ≤ 100 :=
  ⟨le_min (by norm_num) (le_max_left 0 x), min_le_left _ _⟩

/-- Mean of a list of nonnegative rationals is nonnegative. -/
theorem meanQ_nonneg {l : List ℚ} (h : ∀ x ∈ l, 0 ≤ x) : 0 ≤ meanQ l :=
  div_nonneg (List.sum_nonneg h) (Nat.cast_nonneg _)

/-- Mean of a list of rationals bounded by 100 is bounded by 100. -/
theorem meanQ_le_hundred {l : List ℚ} (h : ∀ x ∈ l, x ≤ 100) : meanQ l ≤ 100 := by
  rcases eq_or_ne l [] with rfl | hne
  · simp [meanQ]
  · have hlen : 0 < (l.length : ℚ) := by
      exact_mod_cast List.length_pos.mpr hne
    rw [meanQ, div_le_iff₀ hlen]
    calc l.sum ≤ l.length • (100 : ℚ) := List.sum_le_card_nsmul l 100 h
      _ = 100 * l.length := by rw [nsmul_eq_mul]; ring

/-- Under monotone timestamps the head never exceeds the last element. -/
theorem getLastD_timestamp_ge {l : List VideoFrame} {a : VideoFrame}
    (h : TimestampsMono (a :: l)) (d : VideoFrame) :
    a.timestamp ≤ ((a :: l).getLastD d).timestamp := by
  induction l generalizing a d with
  | nil => simp [List.getLastD_cons]
  | cons b m ih =>
      rw [List.getLastD_cons]
      have hab : a.timestamp ≤ b.timestamp :=
        (List.pairwise_cons.mp h).1 b (by simp)
      have ht : TimestampsMono (b :: m) := (List.pairwise_cons.mp h).2
      exact hab.trans (ih ht a)

/-- Monotone timestamps give a nonnegative sequence duration. -/
theorem seqDuration_nonneg {frames : List VideoFrame} (h : TimestampsMono frames) :
    0 ≤ seqDuration frames := by
  cases frames with
  | nil => simp [seqDuration]
  | cons a l =>
      have hle := getLastD_timestamp_ge h defaultFrame
      simp only [seqDuration, List.headD_cons]
      exact sub_nonneg.mpr hle

/-- The timing score lies in [0, 100] when both durations are nonnegative. -/
theorem timingScoreOf_bounds {A B : List VideoFrame}
    (hA : 0 ≤ seqDuration A) (hB : 0 ≤ seqDuration B) :
    0 ≤ timingScoreOf A B ∧ timingScoreOf A B ≤ 100 := by
  unfold timingScoreOf
  split_ifs with h
  · norm_num
  · have hmax : 0 < max (seqDuration A) (seqDuration B) := by
      rcases not_and_or.mp h with h1 | h2
      · exact lt_max_of_lt_left (lt_of_le_of_ne hA (Ne.symm h1))
      · exact lt_max_of_lt_right (lt_of_le_of_ne hB (Ne.symm h2))
    refine ⟨div_nonneg (mul_nonneg (by norm_num) (le_min hA hB)) hmax.le, ?_⟩
    rw [div_le_iff₀ hmax]
    exact mul_le_mul_of_nonneg_left min_le_max (by norm_num)

/-- Comparing a sequence with itself always has timing score 100. -/
theorem timingScoreOf_self (A : List VideoFrame) : timingScoreOf A A = 100 := by
  unfold timingScoreOf
  split_ifs with h
  · rfl
  · have hd : seqDuration A ≠ 0 := fun h0 => h ⟨h0, h0⟩
    rw [min_self, max_self, mul_div_assoc, div_self hd, mul_one]

/-- C5: the comparator returns an InvalidInput error exactly when either input
sequence is empty or the config's positionWeight + angularWeight does not sum
to 1.0 (the floating tolerance of the spec collapses to exact equality in the
rational model); InvalidInput is its only error, and on validated input it
returns a complete result, never a partially-populated one. -/
theorem c5_invalid_input_iff (ref cmp : List VideoFrame) (cfg : ResolvedConfig) :
    (compareSequences ref cmp cfg = .error .InvalidInput ↔
      ref = [] ∨ cmp = [] ∨ cfg.positionWeight + cfg.angularWeight ≠ 1) ∧
    (∀ e, compareSequences ref cmp cfg = .error e → e = .InvalidInput) ∧
    (¬(ref = [] ∨ cmp = [] ∨ cfg.positionWeight + cfg.angularWeight ≠ 1) →
      (compareSequences ref cmp cfg).isOk = true) := by
  refine ⟨⟨fun h => ?_, fun hc => ?_⟩, fun e _ => ?_, fun hc => ?_⟩
  · by_contra hc
    rw [compareSequences_eq_ok hc] at h
    simp at h
  · unfold compareSequences
    rw [if_pos hc]
  · cases e
    rfl
  · rw [compareSequences_eq_ok hc]
    rfl

/-- Witness for C5: one empty input produces the InvalidInput error. -/
theorem c5_invalid_input_iff_witness :
    compareSequences [] [emptyF] cfgHalf = .error .InvalidInput :=
  (c5_invalid_input_iff [] [emptyF] cfgHalf).1.mpr (Or.inl rfl)

/-- C3: for non-empty inputs of lengths lenR and lenC the aligner produces
exactly N = min lenR lenC index pairs, pair i mapping to reference index
round(i * (lenR-1)/(N-1)) and comparison index round(i * (lenC-1)/(N-1)); the
comparator therefore returns frameScores of length N — in particular length 10
for inputs of lengths 10 and 20. -/
theorem c3_aligner_shape (lenR lenC : ℕ) (hR : 1 ≤ lenR) (hC : 1 ≤ lenC) :
    (alignIndices lenR lenC).length = min lenR lenC ∧
    (∀ i, i < min lenR lenC → (alignIndices lenR lenC).getD i (0, 0) =
      (natRound ((i : ℚ) * ((lenR : ℚ) - 1) / (((min lenR lenC : ℕ) : ℚ) - 1)),
       natRound ((i : ℚ) * ((lenC : ℚ) - 1) / (((min lenR lenC : ℕ) : ℚ) - 1)))) ∧
    (∀ ref cmp : List VideoFrame, ∀ cfg : ResolvedConfig,
      ref.length = lenR → cmp.length = lenC →
      cfg.positionWeight + cfg.angularWeight = 1 →
      (compareSequences ref cmp cfg).map (fun r => r.frameScores.length) =
        .ok (min lenR lenC)) := by
  refine ⟨by simp [alignIndices], fun i hi => ?_, fun ref cmp cfg h1 h2 hw => ?_⟩
  · have hl : i < (alignIndices lenR lenC).length := by
      simpa [alignIndices] using hi
    rw [List.getD_eq_getElem _ _ hl]
    simp [alignIndices, alignIndex]
  · have hcond : ¬(ref = [] ∨ cmp = [] ∨ cfg.positionWeight + cfg.angularWeight ≠ 1) := by
      push_neg
      refine ⟨?_, ?_, hw⟩
      · intro h
        rw [h] at h1
        simp at h1
        omega
      · intro h
        rw [h] at h2
        simp at h2
        omega
    rw [compareSequences_eq_ok hcond]
    simp [Except.map, alignIndices, h1, h2]

/-- Witness for C3 at lengths 10 and 20. -/
theorem c3_aligner_shape_witness :
    (1 ≤ 10 ∧ 1 ≤ 20) ∧
    (alignIndices 10 20).length = min 10 20 ∧
    (compareSequences seq10 seq20 cfgHalf).map (fun r => r.frameScores.length) =
      .ok (min 10 20) :=
  ⟨⟨by decide, by decide⟩, (c3_aligner_shape 10 20 (by decide) (by decide)).1,
    (c3_aligner_shape 10 20 (by decide) (by decide)).2.2 seq10 seq20 cfgHalf
      (by decide) (by decide) (by norm_num [cfgHalf])⟩

/-- Mapping the success projection over an ok value. -/
theorem exceptMapOk {ε α β : Type} (f : α → β) (x : α) :
    (Except.ok x : Except ε α).map f = .ok (f x) := rfl

/-- The centering step is a coordinate map preserving confidences. -/
theorem centerStep_shape (t : ℚ) (lms : List Landmark) :
    ∃ g : Landmark → Landmark, (∀ l, (g l).visibility = l.visibility) ∧
      centerStep t lms = lms.map g := by
  unfold centerStep
  split_ifs with h
  · refine ⟨_, ?_, rfl⟩
    intro l
    rfl
  · exact ⟨fun l => l, fun l => rfl, by simp⟩

/-- The scaling step is a coordinate map preserving confidences. -/
theorem scaleStep_shape (t : ℚ) (lms : List Landmark) :
    ∃ g : Landmark → Landmark, (∀ l, (g l).visibility = l.visibility) ∧
      scaleStep t lms = lms.map g := by
  unfold scaleStep
  split_ifs with h
  · refine ⟨_, ?_, rfl⟩
    intro l
    rfl
  · exact ⟨fun l => l, fun l => rfl, by simp⟩

/-- The rotation step is a coordinate map preserving confidences. -/
theorem rotationStep_shape (t : ℚ) (lms : List Landmark) :
    ∃ g : Landmark → Landmark, (∀ l, (g l).visibility = l.visibility) ∧
      rotationStep t lms = lms.map g := by
  simp only [rotationStep]
  split_ifs with h
  · refine ⟨_, ?_, rfl⟩
    intro l
    rfl
  · exact ⟨fun l => l, fun l => rfl, by simp⟩

/-- The full normalizer is a coordinate map preserving confidences (hence
indexing and array length). -/
theorem normalizeFrame_shape (n : Normalization) (t : ℚ) (lms : List Landmark) :
    ∃ g : Landmark → Landmark, (∀ l, (g l).visibility = l.visibility) ∧
      normalizeFrame n t lms = lms.map g := by
  have step : ∀ (b : Bool) (f : List Landmark → List Landmark),
      (∀ xs, ∃ g, (∀ l, (g l).visibility = l.visibility) ∧ f xs = xs.map g) →
      ∀ xs : List Landmark,
      ∃ g, (∀ l, (g l).visibility = l.visibility) ∧ (if b then f xs else xs) = xs.map g := by
    intro b f hf xs
    cases b
    · exact ⟨id, fun l => rfl, by simp⟩
    · simpa using hf xs
  obtain ⟨g1, hv1, he1⟩ := step n.center (centerStep t) (centerStep_shape t) lms
  obtain ⟨g2, hv2, he2⟩ := step n.scale (scaleStep t) (scaleStep_shape t) (lms.map g1)
  obtain ⟨g3, hv3, he3⟩ := step n.rotation (rotationStep t) (rotationStep_shape t)
    ((lms.map g1).map g2)
  refine ⟨g3 ∘ g2 ∘ g1, fun l => by simp [hv3, hv2, hv1], ?_⟩
  simp only [normalizeFrame]
  rw [he1, he2, he3, List.map_map, List.map_map]
  rfl

/-- The position similarity of a landmark with itself is 100. -/
theorem posSim_self (a : Landmark) : posSim a a = 100 := by
  have hd : distSq a a = 0 := by simp [distSq]
  rw [posSim, hd, sub_zero, max_eq_right (by norm_num : (0:ℚ) ≤ 1)]
  norm_num

/-- Landmark importance weights are positive. -/
theorem landmarkWeight_pos (i : ℕ) : 0 < landmarkWeight i := by
  unfold landmarkWeight
  split_ifs <;> norm_num

/-- Position score of a frame against itself at threshold 0 with nonnegative
visibilities is 100. -/
theorem positionScore_self {nl : List Landmark} (h0 : ∀ l ∈ nl, 0 ≤ visD l)
    (hne : nl ≠ []) : positionScore 0 nl nl = 100 := by
  unfold positionScore
  have hidx : comparableIdx 0 nl nl = List.range nl.length := by
    unfold comparableIdx
    rw [min_self]
    apply List.filter_eq_self.mpr
    intro i hi
    rw [List.mem_range] at hi
    have hmem : nl.getD i defaultLandmark ∈ nl := by
      rw [List.getD_eq_getElem nl defaultLandmark hi]
      exact List.getElem_mem hi
    simp only [Bool.and_eq_true, decide_eq_true_eq]
    exact ⟨h0 _ hmem, h0 _ hmem⟩
  rw [hidx]
  show ((List.range nl.length).map (fun i =>
      landmarkWeight i * posSim (nl.getD i defaultLandmark) (nl.getD i defaultLandmark))).sum /
    ((List.range nl.length).map landmarkWeight).sum = 100
  have hcong : (List.range nl.length).map (fun i =>
      landmarkWeight i * posSim (nl.getD i defaultLandmark) (nl.getD i defaultLandmark)) =
      (List.range nl.length).map (fun i => landmarkWeight i * 100) := by
    apply List.map_congr_left
    intro i _
    rw [posSim_self]
  rw [hcong, List.sum_map_mul_right]
  have hpos : 0 < ((List.range nl.length).map landmarkWeight).sum := by
    refine List.sum_pos _ (fun x hx => ?_) ?_
    · obtain ⟨i, _, rfl⟩ := List.mem_map.mp hx
      exact landmarkWeight_pos i
    · have hn : nl.length ≠ 0 := fun hc => hne (List.length_eq_zero.mp hc)
      simp [List.range_eq_nil, hn]
  rw [mul_comm, mul_div_assoc, div_self hpos.ne', mul_one]

/-- Angular score of a 33-landmark frame against itself at threshold 0 with
nonnegative visibilities is 100. -/
theorem angularScore_self {nl : List Landmark} (h0 : ∀ l ∈ nl, 0 ≤ visD l)
    (hlen : nl.length = 33) : angularScore 0 nl nl = 100 := by
  unfold angularScore
  have hv : ∀ k, k < nl.length → 0 ≤ visD (nl.getD k defaultLandmark) := by
    intro k hk
    rw [List.getD_eq_getElem nl defaultLandmark hk]
    exact h0 _ (List.getElem_mem hk)
  have husable : ∀ j ∈ jointTriples, (jointUsable 0 nl j && jointUsable 0 nl j) = true := by
    intro j hj
    rw [Bool.and_self]
    have hidx : j.1 < nl.length ∧ j.2.1 < nl.length ∧ j.2.2 < nl.length := by
      rw [hlen]
      fin_cases hj <;> norm_num
    unfold jointUsable
    simp only [Bool.and_eq_true, decide_eq_true_eq]
    exact ⟨⟨⟨⟨⟨hidx.1, hidx.2.1⟩, hidx.2.2⟩, hv _ hidx.1⟩, hv _ hidx.2.1⟩, hv _ hidx.2.2⟩
  rw [List.filter_eq_self.mpr husable]
  show (jointTriples.map (angSim nl nl)).sum / (jointTriples.length : ℚ) = 100
  have hcong : jointTriples.map (angSim nl nl) = jointTriples.map (fun _ => (100:ℚ)) := by
    apply List.map_congr_left
    intro j _
    unfold angSim
    rw [sub_self, abs_zero, zero_div, sub_zero, mul_one]
  rw [hcong]
  norm_num [jointTriples]

/-- Comparing a well-formed frame with itself at threshold 0 gives position,
angular and combined frame scores of 100. -/
theorem frameSelf_scores (cfg : ResolvedConfig) (h0 : cfg.visibilityThreshold = 0)
    (hw : cfg.positionWeight + cfg.angularWeight = 1) (f : VideoFrame) (hf : FrameOK f) :
    framePositionScore cfg f f = 100 ∧ frameAngularScore cfg f f = 100 ∧
      frameScore cfg f f = 100 := by
  obtain ⟨g, hg, he⟩ := normalizeFrame_shape cfg.normalization 0 f.landmarks
  have hvis : ∀ l ∈ normalizeFrame cfg.normalization 0 f.landmarks, 0 ≤ visD l := by
    rw [he]
    intro l hl
    obtain ⟨a, ha, rfl⟩ := List.mem_map.mp hl
    have hgv : visD (g a) = visD a := by unfold visD; rw [hg]
    rw [hgv]
    exact hf.2 a ha
  have hlen : (normalizeFrame cfg.normalization 0 f.landmarks).length = 33 := by
    rw [he, List.length_map, hf.1]
  have hnne : normalizeFrame cfg.normalization 0 f.landmarks ≠ [] := by
    intro hc
    rw [hc] at hlen
    simp at hlen
  have hp : framePositionScore cfg f f = 100 := by
    unfold framePositionScore
    rw [h0]
    exact positionScore_self hvis hnne
  have ha : frameAngularScore cfg f f = 100 := by
    unfold frameAngularScore
    rw [h0]
    exact angularScore_self hvis hlen
  refine ⟨hp, ha, ?_⟩
  unfold frameScore
  rw [hp, ha]
  have hcomb : cfg.positionWeight * 100 + cfg.angularWeight * 100 = 100 := by
    calc cfg.positionWeight * 100 + cfg.angularWeight * 100
        = (cfg.positionWeight + cfg.angularWeight) * 100 := by ring
      _ = 100 := by rw [hw]; ring
  rw [hcomb]
  unfold clampScore
  rw [max_eq_right (by norm_num : (0:ℚ) ≤ 100), min_self]

/-- Aligning a sequence with itself pairs every index with itself. -/
theorem alignIndex_self {n i : ℕ} (hi : i < n) : alignIndex n n i = i := by
  unfold alignIndex natRound
  rcases Nat.lt_or_ge n 2 with hn | hn
  · have hn1 : n = 1 := by omega
    have hi0 : i = 0 := by omega
    subst hn1
    subst hi0
    norm_num
  · have hne : ((n : ℚ) - 1) ≠ 0 := by
      have h2 : (2 : ℚ) ≤ (n : ℚ) := by exact_mod_cast hn
      linarith
    rw [mul_div_assoc, div_self hne, mul_one, round_natCast, Int.toNat_natCast]

/-- The self-alignment of a length-n sequence is the diagonal pairing. -/
theorem alignIndices_self (n : ℕ) :
    alignIndices n n = (List.range n).map (fun i => (i, i)) := by
  unfold alignIndices
  rw [min_self]
  apply List.map_congr_left
  intro i hi
  rw [List.mem_range] at hi
  rw [alignIndex_self hi]

/-- C8: identity property — for every non-empty sequence S of well-formed
frames, comparing S against itself with visibilityThreshold = 0 (and weights
summing to 1 so the comparator runs) yields frameScores identically 100 and
timingScore 100. -/
theorem c8_identity (S : List VideoFrame) (cfg : ResolvedConfig) (hne : S ≠ [])
    (h0 : cfg.visibilityThreshold = 0) (hw : cfg.positionWeight + cfg.angularWeight = 1)
    (hS : ∀ f ∈ S, FrameOK f) :
    (compareSequences S S cfg).map (fun r => (r.frameScores, r.breakdown.timingScore)) =
      .ok (List.replicate S.length 100, 100) := by
  have hcond : ¬(S = [] ∨ S = [] ∨ cfg.positionWeight + cfg.angularWeight ≠ 1) := by
    push_neg
    exact ⟨hne, hne, hw⟩
  rw [compareSequences_eq_ok hcond, exceptMapOk]
  refine congrArg Except.ok ?_
  rw [Prod.mk.injEq]
  constructor
  · rw [alignIndices_self, List.map_map]
    apply List.eq_replicate_iff.mpr
    constructor
    · simp
    · intro b hb
      obtain ⟨i, hi, rfl⟩ := List.mem_map.mp hb
      rw [List.mem_range] at hi
      show frameScore cfg (S.getD i defaultFrame) (S.getD i defaultFrame) = 100
      have hmem : S.getD i defaultFrame ∈ S := by
        rw [List.getD_eq_getElem S defaultFrame hi]
        exact List.getElem_mem hi
      exact (frameSelf_scores cfg h0 hw _ (hS _ hmem)).2.2
  · exact timingScoreOf_self S

/-- Witness for C8: a single 33-landmark frame compared with itself. -/
theorem c8_identity_witness :
    ([frame33] ≠ [] ∧ cfgIdent.visibilityThreshold = 0 ∧
      cfgIdent.positionWeight + cfgIdent.angularWeight = 1 ∧
      ∀ f ∈ [frame33], FrameOK f) ∧
    (compareSequences [frame33] [frame33] cfgIdent).map
        (fun r => (r.frameScores, r.breakdown.timingScore)) =
      .ok (List.replicate (List.length [frame33]) 100, 100) :=
  ⟨⟨by decide, rfl, by norm_num [cfgIdent], by decide⟩,
    c8_identity [frame33] cfgIdent (by decide) rfl (by norm_num [cfgIdent]) (by decide)⟩

/-- C6: for non-empty inputs the timing score is
100 * min(durationA, durationB) / max(durationA, durationB) over the original
unaligned sequences (100 when both durations are 0); sequences with 0 or 1
frame have duration 0; and comparing a well-formed 1-frame sequence to itself
at threshold 0 yields exactly one frame score of 100 and timingScore 100. -/
theorem c6_timing (ref cmp : List VideoFrame) (cfg : ResolvedConfig)
    (hner : ref ≠ []) (hnec : cmp ≠ []) (hw : cfg.positionWeight + cfg.angularWeight = 1)
    (f : VideoFrame) (cfg1 : ResolvedConfig) (hf : FrameOK f)
    (h0 : cfg1.visibilityThreshold = 0) (hw1 : cfg1.positionWeight + cfg1.angularWeight = 1)
    (g : VideoFrame) :
    (compareSequences ref cmp cfg).map (fun r => r.breakdown.timingScore) =
      .ok (if seqDuration ref = 0 ∧ seqDuration cmp = 0 then 100
        else 100 * min (seqDuration ref) (seqDuration cmp) /
          max (seqDuration ref) (seqDuration cmp)) ∧
    seqDuration [g] = 0 ∧ seqDuration ([] : List VideoFrame) = 0 ∧
    (compareSequences [f] [f] cfg1).map
        (fun r => (r.frameScores, r.breakdown.timingScore)) = .ok ([100], 100) := by
  refine ⟨?_, ?_, ?_, ?_⟩
  · have hcond : ¬(ref = [] ∨ cmp = [] ∨ cfg.positionWeight + cfg.angularWeight ≠ 1) := by
      push_neg
      exact ⟨hner, hnec, hw⟩
    rw [compareSequences_eq_ok hcond, exceptMapOk]
    rfl
  · simp [seqDuration]
  · simp [seqDuration]
  · have hcond : ¬([f] = [] ∨ [f] = [] ∨ cfg1.positionWeight + cfg1.angularWeight ≠ 1) := by
      push_neg
      exact ⟨by simp, by simp, hw1⟩
    rw [compareSequences_eq_ok hcond, exceptMapOk]
    refine congrArg Except.ok ?_
    rw [Prod.mk.injEq]
    constructor
    · show List.map (fun p => frameScore cfg1 ([f].getD p.1 defaultFrame) ([f].getD p.2 defaultFrame))
        (alignIndices (List.length [f]) (List.length [f])) = [100]
      rw [show List.length [f] = 1 from rfl, alignIndices_self,
        show List.range 1 = [0] from rfl]
      simp only [List.map_cons, List.map_nil, Function.comp_apply, List.getD_cons_zero]
      rw [(frameSelf_scores cfg1 h0 hw1 f hf).2.2]
    · exact timingScoreOf_self [f]

/-- Witness for C6 at concrete one-frame inputs. -/
theorem c6_timing_witness :
    ([emptyF] ≠ [] ∧ cfgHalf.positionWeight + cfgHalf.angularWeight = 1 ∧
      FrameOK frame33 ∧ cfgIdent.visibilityThreshold = 0 ∧
      cfgIdent.positionWeight + cfgIdent.angularWeight = 1) ∧
    ((compareSequences [emptyF] [emptyF] cfgHalf).map (fun r => r.breakdown.timingScore) =
        .ok (if seqDuration [emptyF] = 0 ∧ seqDuration [emptyF] = 0 then 100
          else 100 * min (seqDuration [emptyF]) (seqDuration [emptyF]) /
            max (seqDuration [emptyF]) (seqDuration [emptyF])) ∧
      seqDuration [emptyF] = 0 ∧ seqDuration ([] : List VideoFrame) = 0 ∧
      (compareSequences [frame33] [frame33] cfgIdent).map
          (fun r => (r.frameScores, r.breakdown.timingScore)) = .ok ([100], 100)) :=
  ⟨⟨by decide, by norm_num [cfgHalf], by decide, rfl, by norm_num [cfgIdent]⟩,
    c6_timing [emptyF] [emptyF] cfgHalf (by decide) (by decide) (by norm_num [cfgHalf])
      frame33 cfgIdent (by decide) rfl (by norm_num [cfgIdent]) emptyF⟩

/-- C4: for every scoring result produced by the comparator on sequences
respecting the monotone-timestamp data-model invariant, overallScore and every
frameScores entry lie in [0, 100], and each per-frame score is the weighted
combination positionWeight * positionScore + angularWeight * angularScore
clamped to [0, 100]. -/
theorem c4_score_bounds (ref cmp : List VideoFrame) (cfg : ResolvedConfig)
    (r : ScoringResult) (hmr : TimestampsMono ref) (hmc : TimestampsMono cmp)
    (h : compareSequences ref cmp cfg = .ok r) :
    (0 ≤ r.overallScore ∧ r.overallScore ≤ 100) ∧
    (∀ s ∈ r.frameScores, 0 ≤ s ∧ s ≤ 100) ∧
    r.frameScores = (alignIndices ref.length cmp.length).map (fun p =>
      clampScore (cfg.positionWeight *
          framePositionScore cfg (ref.getD p.1 defaultFrame) (cmp.getD p.2 defaultFrame) +
        cfg.angularWeight *
          frameAngularScore cfg (ref.getD p.1 defaultFrame) (cmp.getD p.2 defaultFrame))) := by
  have hr := compareSequences_ok_inv h
  have hfs : r.frameScores = (alignIndices ref.length cmp.length).map (fun p =>
      frameScore cfg (ref.getD p.1 defaultFrame) (cmp.getD p.2 defaultFrame)) := by
    rw [hr]
  have hov : r.overallScore = 4 / 5 * meanQ ((alignIndices ref.length cmp.length).map (fun p =>
      frameScore cfg (ref.getD p.1 defaultFrame) (cmp.getD p.2 defaultFrame))) +
      1 / 5 * timingScoreOf ref cmp := by
    rw [hr]
  have hframe : ∀ s ∈ (alignIndices ref.length cmp.length).map (fun p =>
      frameScore cfg (ref.getD p.1 defaultFrame) (cmp.getD p.2 defaultFrame)),
      0 ≤ s ∧ s ≤ 100 := by
    intro s hs
    obtain ⟨p, _, rfl⟩ := List.mem_map.mp hs
    exact clampScore_bounds _
  refine ⟨?_, ?_, ?_⟩
  · have hm0 := meanQ_nonneg (fun x hx => (hframe x hx).1)
    have hm1 := meanQ_le_hundred (fun x hx => (hframe x hx).2)
    have ht := timingScoreOf_bounds (seqDuration_nonneg hmr) (seqDuration_nonneg hmc)
    rw [hov]
    constructor
    · have h1 := mul_nonneg (show (0:ℚ) ≤ 4 / 5 by norm_num) hm0
      have h2 := mul_nonneg (show (0:ℚ) ≤ 1 / 5 by norm_num) ht.1
      linarith
    · have h1 := mul_le_mul_of_nonneg_left hm1 (show (0:ℚ) ≤ 4 / 5 by norm_num)
      have h2 := mul_le_mul_of_nonneg_left ht.2 (show (0:ℚ) ≤ 1 / 5 by norm_num)
      linarith
  · rw [hfs]
    exact hframe
  · rw [hfs]
    exact List.map_congr_left (fun p _ => rfl)

/-- Concrete evaluation: comparing `[emptyF]` with itself under `cfgHalf`
produces exactly `resultEmpty`. -/
theorem compare_empty_eval :
    compareSequences [emptyF] [emptyF] cfgHalf = .ok resultEmpty := by
  have hcond : ¬([emptyF] = [] ∨ [emptyF] = [] ∨
      cfgHalf.positionWeight + cfgHalf.angularWeight ≠ 1) := by
    push_neg
    exact ⟨by simp, by simp, by norm_num [cfgHalf]⟩
  rw [compareSequences_eq_ok hcond]
  have hpair : alignIndices (List.length [emptyF]) (List.length [emptyF]) = [(0, 0)] := by
    rw [show List.length [emptyF] = 1 from rfl, alignIndices_self,
      show List.range 1 = [0] from rfl]
    rfl
  have hnorm : normalizeFrame cfgHalf.normalization cfgHalf.visibilityThreshold
      emptyF.landmarks = [] := by
    show normalizeFrame cfgHalf.normalization cfgHalf.visibilityThreshold [] = []
    simp [normalizeFrame, centerStep, scaleStep, rotationStep, hipsUsable]
  have hpos : framePositionScore cfgHalf emptyF emptyF = 0 := by
    unfold framePositionScore
    rw [hnorm]
    unfold positionScore comparableIdx
    simp
  have hang : frameAngularScore cfgHalf emptyF emptyF = 0 := by
    unfold frameAngularScore
    rw [hnorm]
    unfold angularScore jointUsable
    simp [jointTriples]
  have hfs : frameScore cfgHalf emptyF emptyF = 0 := by
    unfold frameScore
    rw [hpos, hang, mul_zero, mul_zero, add_zero]
    unfold clampScore
    rw [max_self, min_eq_right (by norm_num : (0:ℚ) ≤ 100)]
  have htime : timingScoreOf [emptyF] [emptyF] = 100 := timingScoreOf_self _
  rw [hpair]
  simp only [List.map_cons, List.map_nil, List.getD_cons_zero]
  rw [hfs, hpos, hang, htime]
  have hmean : meanQ [(0:ℚ)] = 0 := by
    unfold meanQ
    simp
  have hstats : statsOf [(0:ℚ)] = { mean := 0, min := 0, max := 0, variance := 0 } := by
    unfold statsOf listMin listMax meanQ
    norm_num
  rw [hmean, hstats]
  unfold resultEmpty
  norm_num

/-- Witness for C4 at a concrete comparison. -/
theorem c4_score_bounds_witness :
    (TimestampsMono [emptyF] ∧
      compareSequences [emptyF] [emptyF] cfgHalf = .ok resultEmpty) ∧
    (0 ≤ resultEmpty.overallScore ∧ resultEmpty.overallScore ≤ 100) :=
  ⟨⟨by decide, compare_empty_eval⟩,
    (c4_score_bounds [emptyF] [emptyF] cfgHalf resultEmpty (by decide) (by decide)
      compare_empty_eval).1⟩

/-- C7: the statistics block of every scoring result is computed over
frameScores by `statsOf`, whose variance is the population variance — the mean
of squared deviations, not the sample variance; for frameScores
[80, 90, 100] this yields mean 90, min 80, max 100 and variance 200/3. -/
theorem c7_statistics (ref cmp : List VideoFrame) (cfg : ResolvedConfig)
    (r : ScoringResult) (h : compareSequences ref cmp cfg = .ok r) (l : List ℚ) :
    r.breakdown.statistics = statsOf r.frameScores ∧
    (statsOf l).mean = meanQ l ∧
    (statsOf l).variance = meanQ (l.map (fun x => (x - meanQ l) ^ 2)) ∧
    (statsOf [80, 90, 100]).mean = 90 ∧
    (statsOf [80, 90, 100]).min = 80 ∧
    (statsOf [80, 90, 100]).max = 100 ∧
    (statsOf [80, 90, 100]).variance = 200 / 3 ∧
    (statsOf [80, 90, 100]).variance ≠
      ((80 - 90 : ℚ) ^ 2 + (90 - 90) ^ 2 + (100 - 90) ^ 2) / 2 := by
  have hr := compareSequences_ok_inv h
  subst hr
  have hmean3 : meanQ [(80:ℚ), 90, 100] = 90 := by
    unfold meanQ
    norm_num
  refine ⟨rfl, rfl, ?_, ?_, ?_, ?_, ?_, ?_⟩
  · unfold statsOf meanQ
    rw [List.length_map]
  · exact hmean3
  · norm_num [statsOf, listMin, min_def]
  · norm_num [statsOf, listMax, max_def]
  · show (List.map (fun x => (x - meanQ [(80:ℚ), 90, 100]) ^ 2) [80, 90, 100]).sum /
      ((List.length [(80:ℚ), 90, 100] : ℕ) : ℚ) = 200 / 3
    rw [hmean3]
    norm_num
  · show (List.map (fun x => (x - meanQ [(80:ℚ), 90, 100]) ^ 2) [80, 90, 100]).sum /
      ((List.length [(80:ℚ), 90, 100] : ℕ) : ℚ) ≠ _
    rw [hmean3]
    norm_num

/-- Witness for C7 at a concrete comparison and the concrete score list. -/
theorem c7_statistics_witness :
    compareSequences [emptyF] [emptyF] cfgHalf = .ok resultEmpty ∧
    resultEmpty.breakdown.statistics = statsOf resultEmpty.frameScores ∧
    (statsOf [80, 90, 100]).mean = 90 ∧
    (statsOf [80, 90, 100]).variance = 200 / 3 :=
  ⟨compare_empty_eval,
    (c7_statistics [emptyF] [emptyF] cfgHalf resultEmpty compare_empty_eval [80, 90, 100]).1,
    (c7_statistics [emptyF] [emptyF] cfgHalf resultEmpty compare_empty_eval [80, 90, 100]).2.2.2.1,
    (c7_statistics [emptyF] [emptyF] cfgHalf resultEmpty compare_empty_eval
      [80, 90, 100]).2.2.2.2.2.2.1⟩

end Frontend
